import Mathlib

/-!
Shallow embedding of the two reporting scripts of this repository
(`export-job-history.py` and `pull-cml-metrics.py`) together with proofs
about the job-run export pipeline and the resource aggregator.

API calls are modelled as data supplied up front: an `ApiData` record maps
each listing call to either `Except.ok` (the returned page) or
`Except.error` (an `ApiException`).  Python `None` is modelled with
`Option`, Python numbers with `Rat`, and a `datetime` value by the string
its `isoformat()` call produces.
-/

namespace CMLExport

/-- A Python value handed to `to_iso`: a `datetime` (carrying the string its
`isoformat()` method yields), a string, `None`, or a value of some other
type. -/
inductive PyTime where
  | dt (isoformat : String)
  | str (s : String)
  | null
  | other (tag : String)
deriving DecidableEq, Repr

/-- Embeds `to_iso` from `export-job-history.py`: a `datetime` becomes its
`isoformat()` string, a string is returned unchanged, anything else
(including `None`) becomes the empty string. -/
def to_iso : PyTime → String
  | PyTime.dt isoformat => isoformat
  | PyTime.str s => s
  | PyTime.null => ""
  | PyTime.other _ => ""

/-- A `creator` object on a job or run; each field is nullable. -/
structure Creator where
  username : Option String
  name : Option String
  email : Option String
deriving DecidableEq, Repr

/-- A job as returned by `list_jobs`; `creator` is `None` or an object. -/
structure Job where
  id : String
  name : String
  creator : Option Creator
deriving DecidableEq, Repr

/-- A job run as returned by `list_job_runs`.  Nullable strings are
`Option String`, nullable numbers `Option Rat`, timestamps `PyTime`. -/
structure JobRun where
  id : String
  job_id : String
  creator : Option Creator
  status : Option String
  created_at : PyTime
  scheduling_at : PyTime
  starting_at : PyTime
  running_at : PyTime
  finished_at : PyTime
  kernel : Option String
  cpu : Option Rat
  memory : Option Rat
  nvidia_gpu : Option Rat
  arguments : Option String
  runtime_identifier : Option String
deriving DecidableEq, Repr

/-- A project as returned by `list_projects`. -/
structure Project where
  id : String
  name : String
deriving DecidableEq, Repr

/-- The outcome of every API call the export script makes.  `Except.error`
models an `ApiException` raised by the call. -/
structure ApiData where
  projects : Except String (List Project)
  jobsOf : String → Except String (List Job)
  runsOf : String → String → Except String (List JobRun)

/-- One CSV row built by `gather_all_job_runs`, with the 20 fields the
script stores in its row dict. -/
structure Row where
  UserUsername : String
  UserName : String
  UserEmail : String
  ProjectID : String
  ProjectName : String
  JobID : String
  JobName : String
  RunID : String
  Status : String
  CreatedAt : String
  SchedulingAt : String
  StartingAt : String
  RunningAt : String
  FinishedAt : String
  Kernel : String
  CPU : Rat
  Memory : Rat
  NvidiaGPU : Rat
  Arguments : String
  RuntimeIdentifier : String
deriving DecidableEq, Repr

/-- Python's `x or ""` applied to a nullable string (an empty string is
falsy in Python, but `"" or ""` is `""` as well, so this is exact). -/
def orEmpty : Option String → String
  | Option.none => ""
  | Option.some s => s

/-- The per-job metadata dict value the script stores in `job_meta`. -/
structure JobMeta where
  jobName : String
  userUsername : Option String
  userName : Option String
  userEmail : Option String
deriving DecidableEq, Repr

/-- Builds the `job_meta` entry for one job: the creator fields stay `None`
when the job has no creator object. -/
def mkJobMeta (j : Job) : JobMeta :=
  { jobName := j.name
    userUsername := match j.creator with
      | Option.some c => c.username
      | Option.none => Option.none
    userName := match j.creator with
      | Option.some c => c.name
      | Option.none => Option.none
    userEmail := match j.creator with
      | Option.some c => c.email
      | Option.none => Option.none }

/-- Insertion into a Python dict modelled as an association list: an
existing key keeps its position and gets the new value, a new key is
appended. -/
def dictInsert (k : String) (v : α) : List (String × α) → List (String × α)
  | [] => [(k, v)]
  | (k2, v2) :: rest => if k2 = k then (k2, v) :: rest else (k2, v2) :: dictInsert k v rest

/-- Builds a Python dict from a sequence of key/value pairs, in order. -/
def buildDict (kvs : List (String × α)) : List (String × α) :=
  kvs.foldl (fun d kv => dictInsert kv.1 kv.2 d) []

/-- Dict lookup. -/
def dictGet : List (String × α) → String → Option α
  | [], _ => Option.none
  | (k2, v2) :: rest, k => if k2 = k then Option.some v2 else dictGet rest k

/-- The `job_meta` dict built from one project's job list. -/
def jobMetaDict (jobs : List Job) : List (String × JobMeta) :=
  buildDict (jobs.map fun j => (j.id, mkJobMeta j))

/-- The `job_meta[job_obj.id]` access.  The key is always present because
every job in the list was inserted, so the default is never reached. -/
def jobMetaFor (jobs : List Job) (jid : String) : JobMeta :=
  (dictGet (jobMetaDict jobs) jid).getD
    { jobName := "", userUsername := Option.none
      userName := Option.none, userEmail := Option.none }

/-- Builds one row for a run, mirroring the row dict literal of
`gather_all_job_runs`: the creator identity starts from the job metadata
and is overridden by the run's own creator when that object is present. -/
def buildRow (project_id project_name : String) (meta : JobMeta) (run : JobRun) : Row :=
  let run_userUsername : Option String :=
    match run.creator with
    | Option.some c => c.username
    | Option.none => meta.userUsername
  let run_userName : Option String :=
    match run.creator with
    | Option.some c => c.name
    | Option.none => meta.userName
  let run_userEmail : Option String :=
    match run.creator with
    | Option.some c => c.email
    | Option.none => meta.userEmail
  { UserUsername := orEmpty run_userUsername
    UserName := orEmpty run_userName
    UserEmail := orEmpty run_userEmail
    ProjectID := project_id
    ProjectName := project_name
    JobID := run.job_id
    JobName := meta.jobName
    RunID := run.id
    Status := orEmpty run.status
    CreatedAt := to_iso run.created_at
    SchedulingAt := to_iso run.scheduling_at
    StartingAt := to_iso run.starting_at
    RunningAt := to_iso run.running_at
    FinishedAt := to_iso run.finished_at
    Kernel := orEmpty run.kernel
    CPU := run.cpu.getD 0
    Memory := run.memory.getD 0
    NvidiaGPU := run.nvidia_gpu.getD 0
    Arguments := orEmpty run.arguments
    RuntimeIdentifier := orEmpty run.runtime_identifier }

/-- The rows produced for one job of one project: a failed `list_job_runs`
call is logged and skipped, otherwise one row per returned run. -/
def gatherRunsForJob (resp : ApiData) (pid pname : String) (jobs : List Job) (job : Job) :
    List Row :=
  match resp.runsOf pid job.id with
  | Except.error _ => []
  | Except.ok runs => runs.map (buildRow pid pname (jobMetaFor jobs job.id))

/-- The rows produced for one project: a failed `list_jobs` call is logged
and skips the whole project. -/
def gatherProject (resp : ApiData) (pid pname : String) : List Row :=
  match resp.jobsOf pid with
  | Except.error _ => []
  | Except.ok jobs => jobs.flatMap (gatherRunsForJob resp pid pname jobs)

/-- The `project_lookup` dict: project id to project name, empty when the
`list_projects` call failed. -/
def projectLookup (resp : ApiData) : List (String × String) :=
  match resp.projects with
  | Except.error _ => []
  | Except.ok ps => buildDict (ps.map fun p => (p.id, p.name))

/-- Embeds `gather_all_job_runs`: a failed `list_projects` call returns the
empty row list, otherwise the projects of the lookup are processed in
order. -/
def gather_all_job_runs (resp : ApiData) : List Row :=
  match resp.projects with
  | Except.error _ => []
  | Except.ok _ => (projectLookup resp).flatMap fun pr => gatherProject resp pr.1 pr.2

/-- The sort key of `write_all_job_runs_csv`: the 4-tuple of strings
`(UserUsername, CreatedAt, ProjectName, JobName)`. -/
def sort_key (r : Row) : String × String × String × String :=
  (r.UserUsername, r.CreatedAt, r.ProjectName, r.JobName)

/-- Python's `<=` on a 4-tuple of strings: lexicographic, each component
compared as a string. -/
def tupleLE (a b : String × String × String × String) : Prop :=
  a.1 < b.1 ∨ (a.1 = b.1 ∧ (a.2.1 < b.2.1 ∨ (a.2.1 = b.2.1 ∧
    (a.2.2.1 < b.2.2.1 ∨ (a.2.2.1 = b.2.2.1 ∧ a.2.2.2 ≤ b.2.2.2)))))

instance (a b : String × String × String × String) : Decidable (tupleLE a b) := by
  unfold tupleLE
  infer_instance

/-- Row comparison induced by the sort key. -/
def rowLE (a b : Row) : Prop := tupleLE (sort_key a) (sort_key b)

instance : DecidableRel rowLE := fun a b => by
  unfold rowLE
  infer_instance

/-- The sort key as an element of the lexicographic product order. -/
def lexKey (r : Row) : String ×ₗ String ×ₗ String ×ₗ String :=
  toLex (r.UserUsername, toLex (r.CreatedAt, toLex (r.ProjectName, r.JobName)))

theorem rowLE_iff_lexKey (a b : Row) : rowLE a b ↔ lexKey a ≤ lexKey b := by
  simp only [rowLE, tupleLE, lexKey, sort_key, Prod.Lex.le_iff]

instance : IsTotal Row rowLE :=
  ⟨fun a b => by
    rcases le_total (lexKey a) (lexKey b) with h | h
    · exact Or.inl ((rowLE_iff_lexKey a b).mpr h)
    · exact Or.inr ((rowLE_iff_lexKey b a).mpr h)⟩

instance : IsTrans Row rowLE :=
  ⟨fun a b c hab hbc => (rowLE_iff_lexKey a c).mpr
    (le_trans ((rowLE_iff_lexKey a b).mp hab) ((rowLE_iff_lexKey b c).mp hbc))⟩

/-- `rows.sort(key=sort_key)`: Python's list sort is a stable ascending
sort, modelled by stable insertion sort under `rowLE`. -/
def sortRows (rows : List Row) : List Row := rows.insertionSort rowLE

/-- A single CSV cell: the script writes strings and numbers. -/
inductive CsvValue where
  | str (s : String)
  | num (q : Rat)
deriving DecidableEq, Repr

/-- The `fieldnames` list of `write_all_job_runs_csv`, in source order. -/
def fieldnames : List String :=
  ["UserUsername", "UserName", "UserEmail", "ProjectID", "ProjectName",
   "JobID", "JobName", "RunID", "Status", "CreatedAt", "SchedulingAt",
   "StartingAt", "RunningAt", "FinishedAt", "Kernel", "CPU", "Memory",
   "NvidiaGPU", "Arguments", "RuntimeIdentifier"]

/-- The cells `csv.DictWriter` emits for one row, in `fieldnames` order. -/
def rowFields (r : Row) : List CsvValue :=
  [CsvValue.str r.UserUsername, CsvValue.str r.UserName, CsvValue.str r.UserEmail,
   CsvValue.str r.ProjectID, CsvValue.str r.ProjectName, CsvValue.str r.JobID,
   CsvValue.str r.JobName, CsvValue.str r.RunID, CsvValue.str r.Status,
   CsvValue.str r.CreatedAt, CsvValue.str r.SchedulingAt, CsvValue.str r.StartingAt,
   CsvValue.str r.RunningAt, CsvValue.str r.FinishedAt, CsvValue.str r.Kernel,
   CsvValue.num r.CPU, CsvValue.num r.Memory, CsvValue.num r.NvidiaGPU,
   CsvValue.str r.Arguments, CsvValue.str r.RuntimeIdentifier]

/-- Embeds `write_all_job_runs_csv`.  The Python function sorts the
passed-in list in place and then writes the header line followed by one
line per row; the mutation is modelled by returning, next to the emitted
lines, the state of the caller's list after the call. -/
def write_all_job_runs_csv (rows : List Row) : List Row × List (List CsvValue) :=
  let sorted := sortRows rows
  (sorted, (fieldnames.map CsvValue.str) :: sorted.map rowFields)

end CMLExport

deriving instance DecidableEq for Except

namespace CMLMetrics

/-- A cpu/memory/gpu accumulator dict of `pull-cml-metrics.py`. -/
structure Resources where
  cpu : Rat
  memory : Rat
  gpu : Rat
deriving DecidableEq, Repr

/-- A job entity: each attribute access either yields a number or raises
`AttributeError` (modelled by `Except.error`). -/
structure JobEnt where
  cpu : Except Unit Rat
  memory : Except Unit Rat
  nvidia_gpu : Except Unit Rat
deriving DecidableEq, Repr

/-- An application entity, with the same fallible attribute accesses. -/
structure AppEnt where
  cpu : Except Unit Rat
  memory : Except Unit Rat
  nvidia_gpu : Except Unit Rat
deriving DecidableEq, Repr

/-- The `default_resources` object of a model. -/
structure ModelRes where
  cpu_millicores : Except Unit Int
  memory_mb : Except Unit Int
  nvidia_gpus : Except Unit Int
deriving DecidableEq, Repr

/-- A model entity; the `default_resources` attribute access itself can
raise `AttributeError`. -/
structure ModelEnt where
  default_resources : Except Unit ModelRes
deriving DecidableEq, Repr

/-- An exception escaping one of the aggregator's functions: an
`ApiException` from a listing call, or the `NameError` raised inside the
`except` handlers of `get_application_resources` and
`get_model_resources`, whose log f-string references the undefined name
`job`. -/
inductive PyErr where
  | apiException (msg : String)
  | nameError
deriving DecidableEq, Repr

/-- The outcome of every API call `pull-cml-metrics.py` makes. -/
structure MetricsApi where
  projects : Except String (List String)
  getProject : String → Except String Unit
  jobsOf : String → Except String (List JobEnt)
  appsOf : String → Except String (List AppEnt)
  modelsOf : String → Except String (List ModelEnt)

/-- The body of the per-job loop of `get_job_resources`.  The `try` block
adds `cpu`, then `memory`, then `nvidia_gpu`; an `AttributeError` on one
access keeps the additions already made, skips the rest of the entity,
and is logged by the `except` handler (which works here, since this
handler's f-string uses the loop variable `job`). -/
def addJobEnt (acc : Resources) (j : JobEnt) : Resources :=
  match j.cpu with
  | Except.error _ => acc
  | Except.ok c =>
    let acc1 := { acc with cpu := acc.cpu + c }
    match j.memory with
    | Except.error _ => acc1
    | Except.ok m =>
      let acc2 := { acc1 with memory := acc1.memory + m }
      match j.nvidia_gpu with
      | Except.error _ => acc2
      | Except.ok g => { acc2 with gpu := acc2.gpu + g }

/-- Embeds `get_job_resources`.  The `get_project` and `list_jobs` calls
are not wrapped in a `try`, so an `ApiException` there propagates to the
caller. -/
def get_job_resources (api : MetricsApi) (pid : String) : Except PyErr Resources :=
  match api.getProject pid with
  | Except.error e => Except.error (PyErr.apiException e)
  | Except.ok _ =>
    match api.jobsOf pid with
    | Except.error e => Except.error (PyErr.apiException e)
    | Except.ok jobs =>
      Except.ok (jobs.foldl addJobEnt { cpu := 0, memory := 0, gpu := 0 })

/-- The body of the per-application loop of `get_application_resources`.
When an attribute access raises `AttributeError`, the `except` handler
evaluates `f"Error processing job {job}: {e}"`, but `job` is not defined
in this function, so the handler itself raises `NameError`, which
propagates out. -/
def addAppEnt (acc : Resources) (a : AppEnt) : Except PyErr Resources :=
  match a.cpu with
  | Except.error _ => Except.error PyErr.nameError
  | Except.ok c =>
    let acc1 := { acc with cpu := acc.cpu + c }
    match a.memory with
    | Except.error _ => Except.error PyErr.nameError
    | Except.ok m =>
      let acc2 := { acc1 with memory := acc1.memory + m }
      match a.nvidia_gpu with
      | Except.error _ => Except.error PyErr.nameError
      | Except.ok g => Except.ok { acc2 with gpu := acc2.gpu + g }

/-- The application loop: stops at the first escaping exception. -/
def foldAppEnts (acc : Resources) : List AppEnt → Except PyErr Resources
  | [] => Except.ok acc
  | a :: rest =>
    match addAppEnt acc a with
    | Except.error e => Except.error e
    | Except.ok acc2 => foldAppEnts acc2 rest

/-- Embeds `get_application_resources`. -/
def get_application_resources (api : MetricsApi) (pid : String) : Except PyErr Resources :=
  match api.getProject pid with
  | Except.error e => Except.error (PyErr.apiException e)
  | Except.ok _ =>
    match api.appsOf pid with
    | Except.error e => Except.error (PyErr.apiException e)
    | Except.ok apps => foldAppEnts { cpu := 0, memory := 0, gpu := 0 } apps

/-- The body of the per-model loop of `get_model_resources`: millicores
are divided by 1000, MB by 1024, GPUs added unchanged.  As in the
application loop, an `AttributeError` makes the `except` handler raise
`NameError` (its f-string also references the undefined name `job`). -/
def addModelEnt (acc : Resources) (m : ModelEnt) : Except PyErr Resources :=
  match m.default_resources with
  | Except.error _ => Except.error PyErr.nameError
  | Except.ok dr =>
    match dr.cpu_millicores with
    | Except.error _ => Except.error PyErr.nameError
    | Except.ok c =>
      let acc1 := { acc with cpu := acc.cpu + (c : Rat) / 1000 }
      match dr.memory_mb with
      | Except.error _ => Except.error PyErr.nameError
      | Except.ok mb =>
        let acc2 := { acc1 with memory := acc1.memory + (mb : Rat) / 1024 }
        match dr.nvidia_gpus with
        | Except.error _ => Except.error PyErr.nameError
        | Except.ok g => Except.ok { acc2 with gpu := acc2.gpu + (g : Rat) }

/-- The model loop: stops at the first escaping exception. -/
def foldModelEnts (acc : Resources) : List ModelEnt → Except PyErr Resources
  | [] => Except.ok acc
  | m :: rest =>
    match addModelEnt acc m with
    | Except.error e => Except.error e
    | Except.ok acc2 => foldModelEnts acc2 rest

/-- Embeds `get_model_resources`. -/
def get_model_resources (api : MetricsApi) (pid : String) : Except PyErr Resources :=
  match api.getProject pid with
  | Except.error e => Except.error (PyErr.apiException e)
  | Except.ok _ =>
    match api.modelsOf pid with
    | Except.error e => Except.error (PyErr.apiException e)
    | Except.ok models => foldModelEnts { cpu := 0, memory := 0, gpu := 0 } models

/-- The four totals `aggregate_resources` returns on success. -/
structure Totals where
  jobT : Resources
  appT : Resources
  modelT : Resources
  grandT : Resources
deriving DecidableEq, Repr

/-- The per-project loop of `aggregate_resources`.  The `if job_resources:`
guards are always taken (the returned dict always has three keys, and a
non-empty dict is truthy), so every successful per-project result is
added.  An exception from any of the three helpers propagates. -/
def aggregateProjects (api : MetricsApi) :
    List String → Resources × Resources × Resources →
    Except PyErr (Resources × Resources × Resources)
  | [], acc => Except.ok acc
  | pid :: rest, (jAcc, aAcc, mAcc) =>
    match get_job_resources api pid with
    | Except.error e => Except.error e
    | Except.ok jr =>
      let jAcc1 : Resources :=
        { cpu := jAcc.cpu + jr.cpu, memory := jAcc.memory + jr.memory, gpu := jAcc.gpu + jr.gpu }
      match get_application_resources api pid with
      | Except.error e => Except.error e
      | Except.ok ar =>
        let aAcc1 : Resources :=
          { cpu := aAcc.cpu + ar.cpu, memory := aAcc.memory + ar.memory, gpu := aAcc.gpu + ar.gpu }
        match get_model_resources api pid with
        | Except.error e => Except.error e
        | Except.ok mr =>
          let mAcc1 : Resources :=
            { cpu := mAcc.cpu + mr.cpu, memory := mAcc.memory + mr.memory, gpu := mAcc.gpu + mr.gpu }
          aggregateProjects api rest (jAcc1, aAcc1, mAcc1)

/-- Embeds `aggregate_resources`.  Its `try` catches only `ApiException`
(returning `None`, modelled as `Except.ok Option.none`); a `NameError`
escaping the helpers is not caught and aborts the script. -/
def aggregate_resources (api : MetricsApi) : Except PyErr (Option Totals) :=
  match (match api.projects with
         | Except.error e => Except.error (PyErr.apiException e)
         | Except.ok ps =>
            aggregateProjects api ps
              ({ cpu := 0, memory := 0, gpu := 0 }, { cpu := 0, memory := 0, gpu := 0 },
               { cpu := 0, memory := 0, gpu := 0 })) with
  | Except.ok (j, a, m) =>
    Except.ok (Option.some
      { jobT := j, appT := a, modelT := m
        grandT := { cpu := j.cpu + a.cpu, memory := j.memory + a.memory, gpu := j.gpu + a.gpu } })
  | Except.error (PyErr.apiException _) => Except.ok Option.none
  | Except.error PyErr.nameError => Except.error PyErr.nameError

end CMLMetrics

open CMLExport CMLMetrics

/-! Example inputs used by the witness theorems. -/

/-- A creator with every field set. -/
def exCreatorAlice : Creator :=
  { username := Option.some "alice", name := Option.some "Alice A"
    email := Option.some "alice@x.org" }

/-- A creator whose `username` and `email` fields are `None`. -/
def exCreatorBobPartial : Creator :=
  { username := Option.none, name := Option.some "Bob B", email := Option.none }

/-- A job created by alice. -/
def exJob1 : Job := { id := "j1", name := "Job One", creator := Option.some exCreatorAlice }

/-- A run of `exJob1` with no run-level creator and every optional field
missing. -/
def exRunA : JobRun :=
  { id := "r1", job_id := "j1", creator := Option.none, status := Option.none
    created_at := PyTime.dt "2024-01-01T00:00:00", scheduling_at := PyTime.null
    starting_at := PyTime.null, running_at := PyTime.null, finished_at := PyTime.null
    kernel := Option.none, cpu := Option.none, memory := Option.none
    nvidia_gpu := Option.none, arguments := Option.none
    runtime_identifier := Option.none }

/-- A run of `exJob1` with a partially-null run-level creator. -/
def exRunB : JobRun :=
  { exRunA with id := "r2", creator := Option.some exCreatorBobPartial
                created_at := PyTime.dt "2024-01-02T00:00:00" }

/-- An API response with one project, one job and two runs. -/
def exApi : ApiData :=
  { projects := Except.ok [{ id := "p1", name := "P1" }]
    jobsOf := fun _ => Except.ok [exJob1]
    runsOf := fun _ _ => Except.ok [exRunA, exRunB] }

/-- An API response whose `list_projects` call fails. -/
def exApiErr : ApiData :=
  { projects := Except.error "boom"
    jobsOf := fun _ => Except.error "boom"
    runsOf := fun _ _ => Except.error "boom" }

/-- The job metadata recorded for `exJob1`. -/
def exMeta1 : JobMeta := mkJobMeta exJob1

/-- A metrics API with one project, one job, one application and one
model, all of whose attribute accesses succeed. -/
def exMetricsApi : MetricsApi :=
  { projects := Except.ok ["p1"]
    getProject := fun _ => Except.ok ()
    jobsOf := fun _ => Except.ok
      [{ cpu := Except.ok 1, memory := Except.ok 2, nvidia_gpu := Except.ok 0 }]
    appsOf := fun _ => Except.ok
      [{ cpu := Except.ok 3, memory := Except.ok 0, nvidia_gpu := Except.ok 1 }]
    modelsOf := fun _ => Except.ok
      [{ default_resources := Except.ok
          { cpu_millicores := Except.ok 2000, memory_mb := Except.ok 2048
            nvidia_gpus := Except.ok 1 } }] }

/-- A metrics API whose single application is missing its `memory`
attribute. -/
def exMetricsApiBadApp : MetricsApi :=
  { exMetricsApi with
    appsOf := fun _ => Except.ok
      [{ cpu := Except.ok 3, memory := Except.error (), nvidia_gpu := Except.ok 1 }] }

/-- A metrics API whose single job has a working `cpu` attribute, a
missing `memory` attribute, and a working `nvidia_gpu` attribute. -/
def exMetricsApiBadJob : MetricsApi :=
  { exMetricsApi with
    jobsOf := fun _ => Except.ok
      [{ cpu := Except.ok 2, memory := Except.error (), nvidia_gpu := Except.ok 5 }]
    modelsOf := fun _ => Except.ok [] }

/-- The model of the concrete conversion example of the specification. -/
def exModel : ModelEnt :=
  { default_resources := Except.ok
      { cpu_millicores := Except.ok 2000, memory_mb := Except.ok 2048
        nvidia_gpus := Except.ok 1 } }

/-! Helper lemmas. -/

theorem dictInsert_of_notMem {α : Type} (k : String) (v : α) (d : List (String × α))
    (h : ∀ p ∈ d, p.1 ≠ k) : dictInsert k v d = d ++ [(k, v)] := by
  induction d with
  | nil => rfl
  | cons p rest ih =>
    obtain ⟨k2, v2⟩ := p
    have hk : k2 ≠ k := h (k2, v2) (List.mem_cons_self _ _)
    simp only [dictInsert, if_neg hk, List.cons_append]
    rw [ih]
    intro q hq
    exact h q (List.mem_cons_of_mem _ hq)

theorem foldl_dictInsert_nodup {α : Type} (kvs acc : List (String × α))
    (h : ((acc ++ kvs).map Prod.fst).Nodup) :
    kvs.foldl (fun d kv => dictInsert kv.1 kv.2 d) acc = acc ++ kvs := by
  induction kvs generalizing acc with
  | nil => simp
  | cons kv rest ih =>
    obtain ⟨k, v⟩ := kv
    have hins : dictInsert k v acc = acc ++ [(k, v)] := by
      apply dictInsert_of_notMem
      intro p hp hpk
      have hkmem : k ∈ acc.map Prod.fst := hpk ▸ List.mem_map_of_mem _ hp
      have hall : ((acc ++ (k, v) :: rest).map Prod.fst).Nodup := h
      simp only [List.map_append, List.map_cons] at hall
      have hd := (List.nodup_append.mp hall).2.2
      exact hd hkmem (by simp)
    have heq : acc ++ (k, v) :: rest = (acc ++ [(k, v)]) ++ rest := by simp
    rw [List.foldl_cons, hins, ih (acc ++ [(k, v)]) (by rw [← heq]; exact h)]
    simp

theorem buildDict_of_nodup {α : Type} (kvs : List (String × α))
    (h : (kvs.map Prod.fst).Nodup) : buildDict kvs = kvs := by
  have hf := foldl_dictInsert_nodup kvs [] (by simpa using h)
  simpa [buildDict] using hf

theorem dictGet_map_of_nodup {β : Type} (f : Job → β) (jobs : List Job) (job : Job)
    (hnd : (jobs.map Job.id).Nodup) (hmem : job ∈ jobs) :
    dictGet (jobs.map fun j => (j.id, f j)) job.id = Option.some (f job) := by
  induction jobs with
  | nil => cases hmem
  | cons j rest ih =>
    rcases List.mem_cons.mp hmem with heq | hmem2
    · subst heq
      simp [dictGet]
    · have hne : j.id ≠ job.id := by
        intro hcontra
        have hin : job.id ∈ rest.map Job.id := List.mem_map_of_mem _ hmem2
        exact (List.nodup_cons.mp hnd).1 (hcontra ▸ hin)
      simp only [List.map_cons, dictGet, if_neg hne]
      exact ih (List.nodup_cons.mp hnd).2 hmem2

theorem jobMetaFor_of_nodup (jobs : List Job) (job : Job)
    (hnd : (jobs.map Job.id).Nodup) (hmem : job ∈ jobs) :
    jobMetaFor jobs job.id = mkJobMeta job := by
  have hkeys : ((jobs.map fun j => (j.id, mkJobMeta j)).map Prod.fst).Nodup := by
    simpa [List.map_map, Function.comp] using hnd
  have hdict : jobMetaDict jobs = jobs.map fun j => (j.id, mkJobMeta j) :=
    buildDict_of_nodup _ hkeys
  rw [jobMetaFor, hdict, dictGet_map_of_nodup mkJobMeta jobs job hnd hmem]
  rfl

/-! Claim theorems. -/

/-- C8: for every source timestamp value, `to_iso` returns the ISO-8601
string of a `datetime` value, returns a string value unchanged, and
returns the empty string for a value of any other type, `None` included;
no parsing or timezone normalization happens. -/
theorem to_iso_cases :
    (∀ isoformat : String, to_iso (PyTime.dt isoformat) = isoformat) ∧
    (∀ s : String, to_iso (PyTime.str s) = s) ∧
    to_iso PyTime.null = "" ∧
    (∀ tag : String, to_iso (PyTime.other tag) = "") :=
  ⟨fun _ => rfl, fun _ => rfl, rfl, fun _ => rfl⟩

/-- C10: when a run's creator object is present, all three identity
fields of the row are taken from it, with null fields coerced to the
empty string; the job-level metadata contributes nothing to them. -/
theorem run_creator_override_all_or_nothing
    (pid pname : String) (meta : JobMeta) (run : JobRun) (c : Creator)
    (h : run.creator = Option.some c) :
    (buildRow pid pname meta run).UserUsername = orEmpty c.username ∧
    (buildRow pid pname meta run).UserName = orEmpty c.name ∧
    (buildRow pid pname meta run).UserEmail = orEmpty c.email := by
  refine ⟨?_, ?_, ?_⟩ <;> simp [buildRow, h]

/-- Witness for C10: a run whose creator has a null `username` and a null
`email` yields empty strings there even though the job metadata carries
alice's fields. -/
theorem run_creator_override_all_or_nothing_witness :
    (buildRow "p1" "P1" exMeta1 exRunB).UserUsername = "" ∧
    (buildRow "p1" "P1" exMeta1 exRunB).UserName = "Bob B" ∧
    (buildRow "p1" "P1" exMeta1 exRunB).UserEmail = "" :=
  run_creator_override_all_or_nothing "p1" "P1" exMeta1 exRunB exCreatorBobPartial rfl

/-- C3: every emitted row has exactly 20 cells, in the fixed field order
of the `fieldnames` list; missing numeric source fields render as `0` and
missing string or timestamp source fields render as the empty string.
The last conjunct states that the emitted file is the header line
followed by exactly the cells of `rowFields` for each row. -/
theorem row_has_twenty_fields_in_fixed_order
    (pid pname : String) (meta : JobMeta) (run : JobRun) :
    (rowFields (buildRow pid pname meta run)).length = 20 ∧
    fieldnames.length = 20 ∧
    rowFields (buildRow pid pname meta run) =
      [CsvValue.str (buildRow pid pname meta run).UserUsername,
       CsvValue.str (buildRow pid pname meta run).UserName,
       CsvValue.str (buildRow pid pname meta run).UserEmail,
       CsvValue.str (buildRow pid pname meta run).ProjectID,
       CsvValue.str (buildRow pid pname meta run).ProjectName,
       CsvValue.str (buildRow pid pname meta run).JobID,
       CsvValue.str (buildRow pid pname meta run).JobName,
       CsvValue.str (buildRow pid pname meta run).RunID,
       CsvValue.str (buildRow pid pname meta run).Status,
       CsvValue.str (buildRow pid pname meta run).CreatedAt,
       CsvValue.str (buildRow pid pname meta run).SchedulingAt,
       CsvValue.str (buildRow pid pname meta run).StartingAt,
       CsvValue.str (buildRow pid pname meta run).RunningAt,
       CsvValue.str (buildRow pid pname meta run).FinishedAt,
       CsvValue.str (buildRow pid pname meta run).Kernel,
       CsvValue.num (buildRow pid pname meta run).CPU,
       CsvValue.num (buildRow pid pname meta run).Memory,
       CsvValue.num (buildRow pid pname meta run).NvidiaGPU,
       CsvValue.str (buildRow pid pname meta run).Arguments,
       CsvValue.str (buildRow pid pname meta run).RuntimeIdentifier] ∧
    (run.cpu = Option.none → (buildRow pid pname meta run).CPU = 0) ∧
    (run.memory = Option.none → (buildRow pid pname meta run).Memory = 0) ∧
    (run.nvidia_gpu = Option.none → (buildRow pid pname meta run).NvidiaGPU = 0) ∧
    (run.status = Option.none → (buildRow pid pname meta run).Status = "") ∧
    (run.kernel = Option.none → (buildRow pid pname meta run).Kernel = "") ∧
    (run.arguments = Option.none → (buildRow pid pname meta run).Arguments = "") ∧
    (run.runtime_identifier = Option.none →
      (buildRow pid pname meta run).RuntimeIdentifier = "") ∧
    (run.created_at = PyTime.null → (buildRow pid pname meta run).CreatedAt = "") ∧
    (run.scheduling_at = PyTime.null → (buildRow pid pname meta run).SchedulingAt = "") ∧
    (run.starting_at = PyTime.null → (buildRow pid pname meta run).StartingAt = "") ∧
    (run.running_at = PyTime.null → (buildRow pid pname meta run).RunningAt = "") ∧
    (run.finished_at = PyTime.null → (buildRow pid pname meta run).FinishedAt = "") ∧
    (∀ rows : List Row, (write_all_job_runs_csv rows).2 =
      (fieldnames.map CsvValue.str) :: (write_all_job_runs_csv rows).1.map rowFields) := by
  refine ⟨rfl, rfl, rfl, ?_, ?_, ?_, ?_, ?_, ?_, ?_, ?_, ?_, ?_, ?_, ?_, fun _ => rfl⟩ <;>
    intro h <;> simp [buildRow, h, orEmpty, to_iso]

/-- Witness for C3: a run with every optional field missing renders its
numeric cells as `0` and its string and timestamp cells as `""`, in a row
of exactly 20 cells. -/
theorem row_has_twenty_fields_in_fixed_order_witness :
    (rowFields (buildRow "p1" "P1" exMeta1 exRunA)).length = 20 ∧
    (buildRow "p1" "P1" exMeta1 exRunA).CPU = 0 ∧
    (buildRow "p1" "P1" exMeta1 exRunA).Memory = 0 ∧
    (buildRow "p1" "P1" exMeta1 exRunA).NvidiaGPU = 0 ∧
    (buildRow "p1" "P1" exMeta1 exRunA).Status = "" ∧
    (buildRow "p1" "P1" exMeta1 exRunA).Kernel = "" ∧
    (buildRow "p1" "P1" exMeta1 exRunA).Arguments = "" ∧
    (buildRow "p1" "P1" exMeta1 exRunA).RuntimeIdentifier = "" ∧
    (buildRow "p1" "P1" exMeta1 exRunA).SchedulingAt = "" := by
  obtain ⟨h1, -, -, h4, h5, h6, h7, h8, h9, h10, -, h12, -, -, -, -⟩ :=
    row_has_twenty_fields_in_fixed_order "p1" "P1" exMeta1 exRunA
  exact ⟨h1, h4 rfl, h5 rfl, h6 rfl, h7 rfl, h8 rfl, h9 rfl, h10 rfl, h12 rfl⟩

/-- C7: the per-model contribution of the aggregator divides
`cpu_millicores` by 1000, divides `memory_mb` by 1024 and adds
`nvidia_gpus` unchanged, whenever all three attribute accesses succeed. -/
theorem model_resource_conversion (acc : Resources) (m : ModelEnt) (dr : ModelRes)
    (c mb g : Int)
    (h : m.default_resources = Except.ok dr)
    (hc : dr.cpu_millicores = Except.ok c)
    (hm : dr.memory_mb = Except.ok mb)
    (hg : dr.nvidia_gpus = Except.ok g) :
    addModelEnt acc m = Except.ok
      { cpu := acc.cpu + (c : Rat) / 1000
        memory := acc.memory + (mb : Rat) / 1024
        gpu := acc.gpu + (g : Rat) } := by
  simp [addModelEnt, h, hc, hm, hg]

/-- Witness for C7: a model with `cpuMillicores=2000`, `memoryMb=2048`,
`nvidiaGpus=1` contributes exactly `cpu+=2`, `memory+=2`, `gpu+=1`. -/
theorem model_resource_conversion_witness :
    addModelEnt { cpu := 0, memory := 0, gpu := 0 } exModel =
      Except.ok { cpu := 2, memory := 2, gpu := 1 } := by
  have h := model_resource_conversion { cpu := 0, memory := 0, gpu := 0 } exModel
    { cpu_millicores := Except.ok 2000, memory_mb := Except.ok 2048
      nvidia_gpus := Except.ok 1 } 2000 2048 1 rfl rfl rfl rfl
  rw [h]
  norm_num

/-- C6: whenever `aggregate_resources` returns totals, the grand total is
componentwise the sum of the job total and the application total; the
model total is returned as its own component and is not added in. -/
theorem grand_total_eq_job_plus_app (api : MetricsApi) (t : Totals)
    (h : aggregate_resources api = Except.ok (Option.some t)) :
    t.grandT.cpu = t.jobT.cpu + t.appT.cpu ∧
    t.grandT.memory = t.jobT.memory + t.appT.memory ∧
    t.grandT.gpu = t.jobT.gpu + t.appT.gpu := by
  unfold aggregate_resources at h
  split at h
  · simp only [Except.ok.injEq, Option.some.injEq] at h
    subst h
    exact ⟨rfl, rfl, rfl⟩
  · simp at h
  · simp at h

/-- Witness for C6: on an API with one project, one job `(1, 2, 0)`, one
application `(3, 0, 1)` and one model `(2000mc, 2048MB, 1)`, the grand
total is `(4, 2, 1)` and the model total `(2, 2, 1)` is left out of it. -/
theorem grand_total_eq_job_plus_app_witness :
    aggregate_resources exMetricsApi = Except.ok (Option.some
      { jobT := { cpu := 1, memory := 2, gpu := 0 }
        appT := { cpu := 3, memory := 0, gpu := 1 }
        modelT := { cpu := 2, memory := 2, gpu := 1 }
        grandT := { cpu := 4, memory := 2, gpu := 1 } }) ∧
    (4 : Rat) = 1 + 3 ∧ (2 : Rat) = 2 + 0 ∧ (1 : Rat) = 0 + 1 := by
  have h : aggregate_resources exMetricsApi = Except.ok (Option.some
      { jobT := { cpu := 1, memory := 2, gpu := 0 }
        appT := { cpu := 3, memory := 0, gpu := 1 }
        modelT := { cpu := 2, memory := 2, gpu := 1 }
        grandT := { cpu := 4, memory := 2, gpu := 1 } }) := by
    simp [aggregate_resources, aggregateProjects, get_job_resources,
      get_application_resources, get_model_resources, addJobEnt, addAppEnt,
      addModelEnt, foldAppEnts, foldModelEnts, exMetricsApi]
    norm_num
  have hc := grand_total_eq_job_plus_app exMetricsApi _ h
  exact ⟨h, hc.1, hc.2.1, hc.2.2⟩

/-- C5 (observed behavior): the claim's log-and-treat-as-zero contract
does not hold.  An application whose `memory` attribute access fails
makes `get_application_resources` raise `NameError` (the `except`
handler's f-string references the undefined name `job`) and the
aggregation aborts; and in `get_job_resources`, a job whose `memory`
access fails keeps the `cpu` amount already added (2 here) while its
working `nvidia_gpu` value (5 here) is skipped, so the sums are not as if
the entity were absent. -/
theorem field_access_failure_observed_behavior :
    get_application_resources exMetricsApiBadApp "p1" = Except.error PyErr.nameError ∧
    aggregate_resources exMetricsApiBadApp = Except.error PyErr.nameError ∧
    get_job_resources exMetricsApiBadJob "p1" =
      Except.ok { cpu := 2, memory := 0, gpu := 0 } := by
  refine ⟨?_, ?_, ?_⟩
  · simp [get_application_resources, foldAppEnts, addAppEnt, exMetricsApiBadApp, exMetricsApi]
  · simp [aggregate_resources, aggregateProjects, get_job_resources,
      get_application_resources, get_model_resources, addJobEnt, addAppEnt,
      foldAppEnts, exMetricsApiBadApp, exMetricsApi]
  · simp [get_job_resources, addJobEnt, exMetricsApiBadJob, exMetricsApi]

theorem rowLE_of_sort_key_eq {a b : Row} (h : sort_key a = sort_key b) : rowLE a b := by
  have h1 : a.UserUsername = b.UserUsername := congrArg Prod.fst h
  have h2 : a.CreatedAt = b.CreatedAt := congrArg (fun p => p.2.1) h
  have h3 : a.ProjectName = b.ProjectName := congrArg (fun p => p.2.2.1) h
  have h4 : a.JobName = b.JobName := congrArg (fun p => p.2.2.2) h
  exact Or.inr ⟨h1, Or.inr ⟨h2, Or.inr ⟨h3, le_of_eq h4⟩⟩⟩

/-- C2: the rows written to the CSV are sorted non-decreasingly by the
4-tuple `(UserUsername, CreatedAt, ProjectName, JobName)` under
lexicographic string comparison, and the sort is stable: two rows with
equal keys that appear as a subsequence of the input appear in the same
order in the output. -/
theorem csv_rows_sorted_and_stable (rows : List Row) :
    List.Sorted rowLE (write_all_job_runs_csv rows).1 ∧
    ∀ a b : Row, sort_key a = sort_key b → [a, b].Sublist rows →
      [a, b].Sublist (write_all_job_runs_csv rows).1 := by
  constructor
  · exact List.sorted_insertionSort rowLE rows
  · intro a b hkey hsub
    exact List.pair_sublist_insertionSort (rowLE_of_sort_key_eq hkey) hsub

/-- Witness for C2: two rows with equal sort keys (differing in `RunID`)
stay in input order after sorting. -/
theorem csv_rows_sorted_and_stable_witness :
    [buildRow "p1" "P1" exMeta1 exRunA,
     buildRow "p1" "P1" exMeta1 { exRunA with id := "r9" }].Sublist
      (write_all_job_runs_csv
        [buildRow "p1" "P1" exMeta1 exRunA,
         buildRow "p1" "P1" exMeta1 { exRunA with id := "r9" }]).1 :=
  (csv_rows_sorted_and_stable
      [buildRow "p1" "P1" exMeta1 exRunA,
       buildRow "p1" "P1" exMeta1 { exRunA with id := "r9" }]).2
    (buildRow "p1" "P1" exMeta1 exRunA)
    (buildRow "p1" "P1" exMeta1 { exRunA with id := "r9" })
    rfl (List.Sublist.refl _)

/-- C9: exporting sorts the caller's list in place: the list state after
the call (the first component of the model's return value) is a
permutation of the passed-in list and is sorted by the CSV sort key. -/
theorem export_reorders_input_list_in_place (rows : List Row) :
    (write_all_job_runs_csv rows).1.Perm rows ∧
    List.Sorted rowLE (write_all_job_runs_csv rows).1 :=
  ⟨List.perm_insertionSort rowLE rows, List.sorted_insertionSort rowLE rows⟩

theorem length_gatherRunsForJob (resp : ApiData) (pid pname : String)
    (jobs : List Job) (job : Job) :
    (gatherRunsForJob resp pid pname jobs job).length =
      match resp.runsOf pid job.id with
      | Except.error _ => 0
      | Except.ok runs => runs.length := by
  cases h : resp.runsOf pid job.id <;> simp [gatherRunsForJob, h]

theorem length_gatherProject (resp : ApiData) (pid pname : String) :
    (gatherProject resp pid pname).length =
      match resp.jobsOf pid with
      | Except.error _ => 0
      | Except.ok jobs =>
        (jobs.map fun j =>
          match resp.runsOf pid j.id with
          | Except.error _ => 0
          | Except.ok runs => runs.length).sum := by
  cases h : resp.jobsOf pid with
  | error e => simp [gatherProject, h]
  | ok jobs =>
    simp only [gatherProject, h, List.length_flatMap]
    congr 1
    apply List.map_congr_left
    intro job _
    exact length_gatherRunsForJob resp pid pname jobs job

/-- C4: the number of gathered rows is the sum, over the enumerated
(project, job) pairs whose listing calls succeeded, of the number of runs
returned for that pair; a pair whose `list_jobs` or `list_job_runs` call
failed contributes zero without affecting the others, and a failed
`list_projects` call yields the empty row list. -/
theorem row_count_eq_sum_over_enumerated_pairs (resp : ApiData) :
    (gather_all_job_runs resp).length =
      ((projectLookup resp).map fun pr =>
        match resp.jobsOf pr.1 with
        | Except.error _ => 0
        | Except.ok jobs =>
          (jobs.map fun j =>
            match resp.runsOf pr.1 j.id with
            | Except.error _ => 0
            | Except.ok runs => runs.length).sum).sum ∧
    (∀ e, resp.projects = Except.error e → gather_all_job_runs resp = []) := by
  constructor
  · cases h : resp.projects with
    | error e => simp [gather_all_job_runs, projectLookup, h]
    | ok ps =>
      simp only [gather_all_job_runs, h, List.length_flatMap]
      congr 1
      apply List.map_congr_left
      intro pr _
      exact length_gatherProject resp pr.1 pr.2
  · intro e he
    simp [gather_all_job_runs, he]

/-- Witness for C4: a failed top-level `list_projects` call produces the
empty export, and the row-count formula evaluates to 0 there. -/
theorem row_count_eq_sum_over_enumerated_pairs_witness :
    gather_all_job_runs exApiErr = [] ∧ (gather_all_job_runs exApiErr).length = 0 := by
  have h := row_count_eq_sum_over_enumerated_pairs exApiErr
  refine ⟨h.2 "boom" rfl, ?_⟩
  rw [h.2 "boom" rfl]
  rfl

/-- C1: every emitted row originates from an enumerated project, job and
run, and its three creator-identity fields are resolved per row: they
come from the run-level creator when that object is present, otherwise
from the job-level creator fields captured in `job_meta` when the run's
job was fetched (equal to that job's own creator fields whenever the job
ids of the project are distinct), otherwise all three are empty
strings. -/
theorem creator_identity_resolution (resp : ApiData) (row : Row)
    (h : row ∈ gather_all_job_runs resp) :
    ∃ pid pname jobs job runs run,
      (pid, pname) ∈ projectLookup resp ∧
      resp.jobsOf pid = Except.ok jobs ∧ job ∈ jobs ∧
      resp.runsOf pid job.id = Except.ok runs ∧ run ∈ runs ∧
      row = buildRow pid pname (jobMetaFor jobs job.id) run ∧
      ((jobs.map Job.id).Nodup → jobMetaFor jobs job.id = mkJobMeta job) ∧
      ((row.UserUsername, row.UserName, row.UserEmail) =
        match run.creator with
        | Option.some c => (orEmpty c.username, orEmpty c.name, orEmpty c.email)
        | Option.none =>
          (orEmpty (jobMetaFor jobs job.id).userUsername,
           orEmpty (jobMetaFor jobs job.id).userName,
           orEmpty (jobMetaFor jobs job.id).userEmail)) ∧
      (run.creator = Option.none →
        (jobMetaFor jobs job.id).userUsername = Option.none →
        (jobMetaFor jobs job.id).userName = Option.none →
        (jobMetaFor jobs job.id).userEmail = Option.none →
        (row.UserUsername, row.UserName, row.UserEmail) = ("", "", "")) := by
  unfold gather_all_job_runs at h
  split at h
  · cases h
  · rcases List.mem_flatMap.mp h with ⟨⟨pid, pname⟩, hpr, hrow⟩
    cases hj : resp.jobsOf pid with
    | error e => simp [gatherProject, hj] at hrow
    | ok jobs =>
      simp only [gatherProject, hj] at hrow
      rcases List.mem_flatMap.mp hrow with ⟨job, hjob, hrow2⟩
      cases hr : resp.runsOf pid job.id with
      | error e => simp [gatherRunsForJob, hr] at hrow2
      | ok runs =>
        simp only [gatherRunsForJob, hr] at hrow2
        rcases List.mem_map.mp hrow2 with ⟨run, hrun, heq⟩
        subst heq
        refine ⟨pid, pname, jobs, job, runs, run, hpr, hj, hjob, hr, hrun, rfl,
          fun hnd => jobMetaFor_of_nodup jobs job hnd hjob, ?_, ?_⟩
        · cases hc : run.creator <;> simp [buildRow, hc]
        · intro h1 h2 h3 h4
          simp [buildRow, h1, h2, h3, h4, orEmpty]

/-- Witness for C1, applied to the two-run example API. -/
theorem creator_identity_resolution_witness :
    buildRow "p1" "P1" (jobMetaFor [exJob1] "j1") exRunA ∈ gather_all_job_runs exApi ∧
    ∃ pid pname jobs job runs run,
      (pid, pname) ∈ projectLookup exApi ∧
      exApi.jobsOf pid = Except.ok jobs ∧ job ∈ jobs ∧
      exApi.runsOf pid job.id = Except.ok runs ∧ run ∈ runs ∧
      buildRow "p1" "P1" (jobMetaFor [exJob1] "j1") exRunA =
        buildRow pid pname (jobMetaFor jobs job.id) run ∧
      ((jobs.map Job.id).Nodup → jobMetaFor jobs job.id = mkJobMeta job) ∧
      (((buildRow "p1" "P1" (jobMetaFor [exJob1] "j1") exRunA).UserUsername,
        (buildRow "p1" "P1" (jobMetaFor [exJob1] "j1") exRunA).UserName,
        (buildRow "p1" "P1" (jobMetaFor [exJob1] "j1") exRunA).UserEmail) =
        match run.creator with
        | Option.some c => (orEmpty c.username, orEmpty c.name, orEmpty c.email)
        | Option.none =>
          (orEmpty (jobMetaFor jobs job.id).userUsername,
           orEmpty (jobMetaFor jobs job.id).userName,
           orEmpty (jobMetaFor jobs job.id).userEmail)) ∧
      (run.creator = Option.none →
        (jobMetaFor jobs job.id).userUsername = Option.none →
        (jobMetaFor jobs job.id).userName = Option.none →
        (jobMetaFor jobs job.id).userEmail = Option.none →
        ((buildRow "p1" "P1" (jobMetaFor [exJob1] "j1") exRunA).UserUsername,
         (buildRow "p1" "P1" (jobMetaFor [exJob1] "j1") exRunA).UserName,
         (buildRow "p1" "P1" (jobMetaFor [exJob1] "j1") exRunA).UserEmail) = ("", "", "")) := by
  have hmem : buildRow "p1" "P1" (jobMetaFor [exJob1] "j1") exRunA ∈
      gather_all_job_runs exApi := by
    have hg : gather_all_job_runs exApi =
        [buildRow "p1" "P1" (jobMetaFor [exJob1] "j1") exRunA,
         buildRow "p1" "P1" (jobMetaFor [exJob1] "j1") exRunB] := rfl
    rw [hg]
    exact List.mem_cons_self _ _
  exact ⟨hmem, creator_identity_resolution exApi _ hmem⟩
